import Mathlib

/-!
Shallow embedding of the two data-seeding scripts of the CaloriLens
repository:

* `upload_dummy_user_login.py` — signs in a fixed test user against the
  identity endpoint, reads the local `foods.json` catalog, derives a
  calorie count per food, and posts 15 synthetic meal documents (3 meals
  per day for the last 5 days) to the user's `mealLogs` subcollection
  over the Firestore REST API.
* `upload_foods.py` — resolves an administrative service-account key
  file, reads `foods.json`, and writes every entry verbatim as one
  document of the shared `foods` collection.

JSON numbers are modelled as `ℚ` (the scripts only add and multiply, so
Python's numeric behaviour on catalog data is exact rational
arithmetic).  Network responses are modelled by status codes supplied as
parameters; the sequence of network calls a run performs is modelled as
an explicit trace.  Python `exit()` is modelled by truncating the trace,
and a Python `IndexError` / uncaught exception by `Option.none`.
-/

namespace CaloriLens

/-! ## Food catalog data (`foods.json`) -/

/-- One value of the `foods.json` mapping as the seeder script reads it:
`data['name']`, `data['proteins']`, `data['fat']`, `data['carbs']`. -/
structure FoodData where
  name : String
  proteins : ℚ
  fat : ℚ
  carbs : ℚ
deriving DecidableEq, Repr

/-- `upload_dummy_user_login.py` line 40:
`calories = (data['proteins'] * 4) + (data['fat'] * 9) + (data['carbs'] * 4)`. -/
def derivedCalories (d : FoodData) : ℚ :=
  d.proteins * 4 + d.fat * 9 + d.carbs * 4

/-- One element of the seeder's `available_foods` list:
`{'name': data['name'], 'calories': calories}` (line 41). -/
structure AvailableFood where
  name : String
  calories : ℚ
deriving DecidableEq, Repr

/-- `upload_dummy_user_login.py` lines 38-41: the loop over
`foods_data_raw.items()` that builds `available_foods`.  The parsed JSON
object is modelled as the list of its key/value pairs in iteration
order. -/
def buildAvailableFoods (raw : List (String × FoodData)) : List AvailableFood :=
  raw.map (fun e => { name := e.2.name, calories := derivedCalories e.2 })

/-! ## Python `datetime` model

Only the operations the seeder uses are modelled: subtracting whole
days (`timedelta(days=i)` keeps the time of day intact), and
`replace(hour=h, minute=0, second=0)` which sets exactly those three
fields and keeps the calendar day and the microsecond field. -/

/-- A naive `datetime`: the calendar date as an absolute day number,
plus the time-of-day fields. -/
structure PyDateTime where
  day : ℤ
  hour : ℕ
  minute : ℕ
  second : ℕ
  microsecond : ℕ
deriving DecidableEq, Repr

/-- `date_obj - timedelta(days=i)`: moves the calendar date back `i`
days and keeps the time of day. -/
def subDays (d : PyDateTime) (i : ℕ) : PyDateTime :=
  { d with day := d.day - i }

/-- `date_obj.replace(hour=h, minute=m, second=s)`: replaces those three
fields only; in particular the microsecond field is kept. -/
def replaceHMS (d : PyDateTime) (h m s : ℕ) : PyDateTime :=
  { d with hour := h, minute := m, second := s }

/-- `date_obj.strftime("%Y-%m-%d")` (line 49) formats exactly the
calendar date; it is modelled by the day number it renders. -/
def dateLabel (d : PyDateTime) : ℤ :=
  d.day

/-! ## The seeder's meal upload (`upload_meal`, lines 48-91) -/

/-- One element of the payload's `items` array: a map with fields
`name` (stringValue) and `calories` (doubleValue) (lines 59-66). -/
structure ItemField where
  name : String
  calories : ℚ
deriving DecidableEq, Repr

/-- The Firestore REST payload built at lines 68-79: fields `date`,
`totalCalories`, `timestamp` and `items`. -/
structure MealPayload where
  date : ℤ
  totalCalories : ℚ
  timestamp : PyDateTime
  items : List ItemField
deriving DecidableEq, Repr

/-- One POST request issued by `upload_meal`: the user id appearing in
the collection URL `users/{uid}/mealLogs` (line 82), the
`Authorization` header (line 85), and the JSON payload. -/
structure MealRequest where
  userId : String
  authHeader : String
  payload : MealPayload
deriving DecidableEq, Repr

/-- The element of the payload's items array built for one meal item
(lines 59-66): a map carrying the item's `name` and `calories`. -/
def itemOf (a : AvailableFood) : ItemField :=
  { name := a.name, calories := a.calories }

/-- `upload_meal(date_obj, items)` (lines 48-86): computes
`date_str`, `total_cal = sum(item['calories'] for item in items)`, the
timestamp and the items array, and addresses the request to
`users/{USER_ID}/mealLogs` with header `Bearer {ID_TOKEN}`. -/
def upload_meal (userId idToken : String) (date_obj : PyDateTime)
    (items : List AvailableFood) : MealRequest :=
  { userId := userId
    authHeader := "Bearer " ++ idToken
    payload :=
      { date := dateLabel date_obj
        totalCalories := (items.map (fun it => it.calories)).sum
        timestamp := date_obj
        items := items.map itemOf } }

/-! ## The seeder's dummy-data generation loop (lines 93-113) -/

/-- One iteration of `for i in range(5)` (lines 100-113): builds the
three meals of `current_date` from the fixed catalog indices
`[0, 18]`, `[1, 9]`, `[14]` at times 08:00, 13:00 and 19:00.  A Python
`IndexError` on `available_foods[j]` is modelled by `none`. -/
def buildDayMeals (foods : List AvailableFood) (current : PyDateTime) :
    Option (List (PyDateTime × List AvailableFood)) := do
  let f0 ← foods.get? 0
  let f18 ← foods.get? 18
  let m1 := [f0, f18]
  let t1 := replaceHMS current 8 0 0
  let f1 ← foods.get? 1
  let f9 ← foods.get? 9
  let m2 := [f1, f9]
  let t2 := replaceHMS current 13 0 0
  let f14 ← foods.get? 14
  let m3 := [f14]
  let t3 := replaceHMS current 19 0 0
  pure [(t1, m1), (t2, m2), (t3, m3)]

/-- The whole generation loop `for i in range(5)` (lines 97-113):
`current_date = today - timedelta(days=i)`, then the day's three
`upload_meal` calls in order.  `none` models the run crashing on an
out-of-range catalog index (which happens before any request of the
first affected day is sent, hence before any request at all, since the
first day is the first iteration). -/
def generateRequests (foods : List AvailableFood) (today : PyDateTime)
    (userId idToken : String) : Option (List MealRequest) := do
  let days ← (List.range 5).mapM (fun i => buildDayMeals foods (subDays today i))
  pure (days.flatten.map (fun p => upload_meal userId idToken p.1 p.2))

/-! ## The seeder's sign-in step and run trace -/

/-- The identity endpoint's HTTP response as the script inspects it:
`status_code`, the JSON fields `idToken` and `localId` (lines 29-30),
and the raw `text` printed on failure (line 25). -/
structure AuthResponse where
  status : ℕ
  idToken : String
  localId : String
  text : String
deriving DecidableEq, Repr

/-- Lines 24-30: `if auth_response.status_code != 200: print(...); exit()`,
otherwise extract `idToken` and `localId`.  The error value carries the
message printed before `exit()`. -/
def signInStep (r : AuthResponse) : Except String (String × String) :=
  if r.status ≠ 200 then .error ("Login Gagal! " ++ r.text)
  else .ok (r.idToken, r.localId)

/-- One network call issued by the seeder script: the sign-in POST to
the identity endpoint, or one meal-document POST to Firestore. -/
inductive NetCall where
  | auth : NetCall
  | mealWrite : MealRequest → NetCall
deriving DecidableEq, Repr

/-- The sequence of network calls one run of
`upload_dummy_user_login.py` performs, as a function of the identity
endpoint's response and the catalog file's parse result (`none` models
a missing or malformed `foods.json`, line 43's `except`).  The sign-in
POST (line 18) is issued unconditionally first; `exit()` and an
uncaught `IndexError` truncate the trace. -/
def seederRun (auth : AuthResponse) (catalog : Option (List (String × FoodData)))
    (today : PyDateTime) : List NetCall :=
  NetCall.auth ::
    match signInStep auth with
    | .error _ => []
    | .ok (idToken, userId) =>
      match catalog with
      | none => []
      | some raw =>
        match generateRequests (buildAvailableFoods raw) today userId idToken with
        | none => []
        | some reqs => reqs.map NetCall.mealWrite

/-- The result-inspection part of the seeder's write loop: each request
is sent and its status checked (`if response.status_code == 200`,
lines 88-91); a non-200 status only selects the `[FAIL]` print and
never stops the loop.  `st` gives each request's response status. -/
def seederWriteLoop (reqs : List MealRequest) (st : MealRequest → ℕ) :
    List (MealRequest × Bool) :=
  match reqs with
  | [] => []
  | r :: rest => (r, st r == 200) :: seederWriteLoop rest st

/-- Checks that a network call of the seeder carries the bearer token
of `idToken` and is addressed to `localId`'s subcollection. -/
def bearerOk (idToken localId : String) : NetCall → Bool
  | NetCall.auth => true
  | NetCall.mealWrite req =>
      req.authHeader == "Bearer " ++ idToken && req.userId == localId

/-- Projects a meal-write call to the pair (date label, timestamp hour)
of its payload; `none` for the sign-in call. -/
def callDateHour : NetCall → Option (ℤ × ℕ)
  | NetCall.auth => none
  | NetCall.mealWrite req => some (req.payload.date, req.payload.timestamp.hour)

/-! ## The catalog uploader (`upload_foods.py`) -/

/-- `upload_foods.py` line 8: the configured service-account key
filename. -/
def SERVICE_ACCOUNT_KEY_FILE : String :=
  "calorilens-b223f-firebase-adminsdk-fbsvc-ec4103c380.json"

/-- Python's `pat in s` substring test, on character sequences: `pat`
occurs in `s` iff it is a prefix of `s` or occurs in `s`'s tail. -/
def containsSub (pat : List Char) : List Char → Bool
  | [] => pat.isPrefixOf []
  | c :: rest => pat.isPrefixOf (c :: rest) || containsSub pat rest

/-- Line 13's filter over `os.listdir('.')`:
`f.endswith('.json') and 'firebase-adminsdk' in f`, with both tests
expressed on the filename's character sequence. -/
def isPotentialKey (f : String) : Bool :=
  ".json".toList.isSuffixOf f.toList && containsSub "firebase-adminsdk".toList f.toList

/-- Lines 11-24: resolve the credential file against the directory
listing `files`.  `os.path.exists` of a local name is modelled as
membership in the listing.  The exact configured name wins; otherwise
the first listed file matching the service-account pattern; otherwise
the fallback name `serviceAccountKey.json` if present; otherwise the
script prints an error and exits, modelled as `none`. -/
def resolveKeyFile (files : List String) : Option String :=
  if SERVICE_ACCOUNT_KEY_FILE ∈ files then some SERVICE_ACCOUNT_KEY_FILE
  else
    match files.filter isPotentialKey with
    | k :: _ => some k
    | [] =>
      if "serviceAccountKey.json" ∈ files then some "serviceAccountKey.json"
      else none

/-- One administrative document write: `collection_ref.document(food_id)`
followed by `doc_ref.set(data)` (lines 57-58).  The content type is a
parameter because the script never inspects the parsed entry values. -/
structure DocWrite (α : Type) where
  collection : String
  docId : String
  content : α
deriving DecidableEq, Repr

/-- Lines 55-62: the upload loop.  For each entry of `foods_data` one
`set` call on `collection_ref = db.collection("foods")` is attempted;
`succ` tells whether it raises.  On success `count += 1`; on failure
the exception is caught, printed, and the loop continues.  Returns the
attempted writes (with their outcome) and the final `count`. -/
def uploadFoodsLoop {α : Type} (entries : List (String × α))
    (succ : String × α → Bool) : List (DocWrite α × Bool) × ℕ :=
  match entries with
  | [] => ([], 0)
  | e :: rest =>
    let ok := succ e
    let (ws, c) := uploadFoodsLoop rest succ
    (({ collection := "foods", docId := e.1, content := e.2 }, ok) :: ws,
      (if ok then 1 else 0) + c)

/-- The whole `upload_foods.py` run: credential resolution (lines
11-24), Firebase initialization (lines 27-34, `initOk` tells whether it
raises), catalog parsing (lines 37-46, `none` models a missing file or
invalid JSON), then the upload loop.  Every `exit()` path yields no
writes and count 0. -/
def uploadFoodsRun {α : Type} (files : List String) (initOk : Bool)
    (catalog : Option (List (String × α))) (succ : String × α → Bool) :
    List (DocWrite α × Bool) × ℕ :=
  match resolveKeyFile files with
  | none => ([], 0)
  | some _ =>
    if initOk then
      match catalog with
      | none => ([], 0)
      | some entries => uploadFoodsLoop entries succ
    else ([], 0)

/-! ## Concrete data for witnesses and counterexamples -/

/-- A parsed catalog of 19 entries (the repository's `foods.json` has
enough entries for the seeder's fixed indices). -/
def sampleRaw : List (String × FoodData) :=
  (List.range 19).map (fun i => ("id", { name := "n", proteins := (i : ℚ), fat := 0, carbs := 0 }))

/-- A parsed catalog of only 18 entries. -/
def raw18 : List (String × FoodData) :=
  (List.range 18).map (fun i => ("id", { name := "n", proteins := (i : ℚ), fat := 0, carbs := 0 }))

/-- An `available_foods` list of 19 entries. -/
def sampleFoods : List AvailableFood :=
  (List.range 19).map (fun i => { name := "n", calories := (i : ℚ) })

/-- A successful identity-endpoint response. -/
def authOk : AuthResponse :=
  { status := 200, idToken := "tok", localId := "uid", text := "ok" }

/-- A failed identity-endpoint response. -/
def authFail : AuthResponse :=
  { status := 400, idToken := "", localId := "", text := "EMAIL_NOT_FOUND" }

/-- A run start instant whose microsecond field is not zero, as
`datetime.utcnow()` generally returns. -/
def t0 : PyDateTime :=
  { day := 0, hour := 10, minute := 30, second := 45, microsecond := 123456 }

/-- Default element for stating in-range list accesses via `List.getD`. -/
def dfood : AvailableFood :=
  { name := "", calories := 0 }

/-! ## Helper lemmas -/

theorem get?_of_lt {α : Type} (l : List α) (n : ℕ) (d : α) (h : n < l.length) :
    l.get? n = some (l.getD n d) := by
  rw [List.getD_eq_getElem?_getD, List.get?_eq_getElem?, List.getElem?_eq_getElem h]
  simp

theorem buildDayMeals_eq (foods : List AvailableFood) (cur : PyDateTime)
    (h : 19 ≤ foods.length) :
    buildDayMeals foods cur = some
      [(replaceHMS cur 8 0 0, [foods.getD 0 dfood, foods.getD 18 dfood]),
       (replaceHMS cur 13 0 0, [foods.getD 1 dfood, foods.getD 9 dfood]),
       (replaceHMS cur 19 0 0, [foods.getD 14 dfood])] := by
  unfold buildDayMeals
  rw [get?_of_lt foods 0 dfood (by omega), get?_of_lt foods 18 dfood (by omega),
    get?_of_lt foods 1 dfood (by omega), get?_of_lt foods 9 dfood (by omega),
    get?_of_lt foods 14 dfood (by omega)]
  rfl

theorem buildDayMeals_none (foods : List AvailableFood) (cur : PyDateTime)
    (h : foods.length < 19) :
    buildDayMeals foods cur = none := by
  have h18 : foods[18]? = none := List.getElem?_eq_none (by omega)
  unfold buildDayMeals
  cases h0 : foods.get? 0 with
  | none => simp [h0]
  | some f0 => simp [h0, h18]

theorem generateRequests_eq (foods : List AvailableFood) (today : PyDateTime)
    (uid tok : String) (h : 19 ≤ foods.length) :
    generateRequests foods today uid tok = some
      [upload_meal uid tok (replaceHMS (subDays today 0) 8 0 0) [foods.getD 0 dfood, foods.getD 18 dfood],
       upload_meal uid tok (replaceHMS (subDays today 0) 13 0 0) [foods.getD 1 dfood, foods.getD 9 dfood],
       upload_meal uid tok (replaceHMS (subDays today 0) 19 0 0) [foods.getD 14 dfood],
       upload_meal uid tok (replaceHMS (subDays today 1) 8 0 0) [foods.getD 0 dfood, foods.getD 18 dfood],
       upload_meal uid tok (replaceHMS (subDays today 1) 13 0 0) [foods.getD 1 dfood, foods.getD 9 dfood],
       upload_meal uid tok (replaceHMS (subDays today 1) 19 0 0) [foods.getD 14 dfood],
       upload_meal uid tok (replaceHMS (subDays today 2) 8 0 0) [foods.getD 0 dfood, foods.getD 18 dfood],
       upload_meal uid tok (replaceHMS (subDays today 2) 13 0 0) [foods.getD 1 dfood, foods.getD 9 dfood],
       upload_meal uid tok (replaceHMS (subDays today 2) 19 0 0) [foods.getD 14 dfood],
       upload_meal uid tok (replaceHMS (subDays today 3) 8 0 0) [foods.getD 0 dfood, foods.getD 18 dfood],
       upload_meal uid tok (replaceHMS (subDays today 3) 13 0 0) [foods.getD 1 dfood, foods.getD 9 dfood],
       upload_meal uid tok (replaceHMS (subDays today 3) 19 0 0) [foods.getD 14 dfood],
       upload_meal uid tok (replaceHMS (subDays today 4) 8 0 0) [foods.getD 0 dfood, foods.getD 18 dfood],
       upload_meal uid tok (replaceHMS (subDays today 4) 13 0 0) [foods.getD 1 dfood, foods.getD 9 dfood],
       upload_meal uid tok (replaceHMS (subDays today 4) 19 0 0) [foods.getD 14 dfood]] := by
  unfold generateRequests
  rw [show List.range 5 = [0, 1, 2, 3, 4] from rfl]
  simp [List.mapM_cons, List.mapM.loop, buildDayMeals_eq foods _ h]

theorem generateRequests_auth (foods : List AvailableFood) (today : PyDateTime)
    (uid tok : String) (reqs : List MealRequest)
    (h : generateRequests foods today uid tok = some reqs) :
    ∀ r ∈ reqs, r.authHeader = "Bearer " ++ tok ∧ r.userId = uid := by
  unfold generateRequests at h
  cases hdays : (List.range 5).mapM (fun i => buildDayMeals foods (subDays today i)) with
  | none => rw [hdays] at h; simp at h
  | some days =>
    rw [hdays] at h
    simp only [Option.bind_eq_bind, Option.some_bind, Option.some.injEq, pure] at h
    subst h
    intro r hr
    simp only [List.mem_map] at hr
    obtain ⟨p, _, rfl⟩ := hr
    exact ⟨rfl, rfl⟩

theorem seederRun_ok_some (auth : AuthResponse) (h : auth.status = 200)
    (raw : List (String × FoodData)) (today : PyDateTime) :
    seederRun auth (some raw) today =
      NetCall.auth ::
        (match generateRequests (buildAvailableFoods raw) today auth.localId auth.idToken with
         | none => []
         | some reqs => reqs.map NetCall.mealWrite) := by
  unfold seederRun
  rw [show signInStep auth = Except.ok (auth.idToken, auth.localId) by simp [signInStep, h]]

theorem seederRun_ok_none (auth : AuthResponse) (h : auth.status = 200)
    (today : PyDateTime) :
    seederRun auth none today = [NetCall.auth] := by
  unfold seederRun
  rw [show signInStep auth = Except.ok (auth.idToken, auth.localId) by simp [signInStep, h]]

/-! ## Claim theorems -/

/-- C1: for every food entry with macronutrient values proteins `p`,
fat `f`, carbs `c`, the derived calorie count computed by the seeder
(line 40) equals exactly `4*p + 9*f + 4*c`. -/
theorem calorie_derivation (raw : List (String × FoodData)) :
    buildAvailableFoods raw = raw.map (fun e =>
      { name := e.2.name,
        calories := 4 * e.2.proteins + 9 * e.2.fat + 4 * e.2.carbs }) := by
  unfold buildAvailableFoods derivedCalories
  refine List.map_congr_left ?_
  intro e _
  simp only [AvailableFood.mk.injEq, true_and]
  ring

/-- C2: for every list of meal items, the `totalCalories` value placed
in the posted meal document by `upload_meal` equals the sum of the
`calories` fields of the constituent items — both of the posted items
array and of the input item list. -/
theorem meal_total (userId idToken : String) (date_obj : PyDateTime)
    (items : List AvailableFood) :
    (upload_meal userId idToken date_obj items).payload.totalCalories
        = ((upload_meal userId idToken date_obj items).payload.items.map
            (fun it => it.calories)).sum ∧
    (upload_meal userId idToken date_obj items).payload.totalCalories
        = (items.map (fun it => it.calories)).sum := by
  constructor
  · simp only [upload_meal, List.map_map]
    rfl
  · rfl

/-- C3: in both scripts a failed per-item write does not stop the
remaining writes: the catalog uploader attempts one document write per
entry whatever the outcomes and its final printed count counts exactly
the successful writes, and the seeder's write loop inspects every
request's status without dropping any request. -/
theorem upload_continuation {α : Type} (entries : List (String × α))
    (succ : String × α → Bool) (reqs : List MealRequest) (st : MealRequest → ℕ) :
    (uploadFoodsLoop entries succ).1.map Prod.fst
        = entries.map (fun e => { collection := "foods", docId := e.1, content := e.2 }) ∧
    (uploadFoodsLoop entries succ).2 = entries.countP succ ∧
    (seederWriteLoop reqs st).map Prod.fst = reqs := by
  refine ⟨?_, ?_, ?_⟩
  · induction entries with
    | nil => rfl
    | cons e rest ih => simp [uploadFoodsLoop, ih]
  · induction entries with
    | nil => rfl
    | cons e rest ih =>
      simp only [uploadFoodsLoop, List.countP_cons, ih]
      cases h : succ e <;> simp [h]
      omega
  · induction reqs with
    | nil => rfl
    | cons r rest ih => simp [seederWriteLoop, ih]

/-- C10: for every catalog entry the catalog uploader issues one write
into the `foods` collection, keyed by the entry's id, whose content is
the entry's value verbatim — no field is derived, altered or
dropped. -/
theorem verbatim_catalog_write {α : Type} (entries : List (String × α))
    (succ : String × α → Bool) :
    (uploadFoodsLoop entries succ).1.map Prod.fst
        = entries.map (fun e => { collection := "foods", docId := e.1, content := e.2 }) ∧
    (uploadFoodsLoop entries succ).1.map (fun w => w.1.content) = entries.map Prod.snd := by
  constructor
  · induction entries with
    | nil => rfl
    | cons e rest ih => simp [uploadFoodsLoop, ih]
  · induction entries with
    | nil => rfl
    | cons e rest ih => simp [uploadFoodsLoop, ih]

/-- C4, counterexample: the claim says a malformed catalog file
terminates the run before any network call is made, i.e. the run's
trace of network calls is empty.  In the seeder the sign-in POST is
issued before the catalog is even opened: with a successful sign-in and
a malformed `foods.json` the run terminates having already made one
network call. -/
theorem catalog_load_counterexample :
    seederRun authOk none t0 = [NetCall.auth] ∧
    seederRun authOk none t0 ≠ [] := by
  constructor
  · rfl
  · intro hcontra
    simp [seederRun] at hcontra

/-- C4, amended: a well-formed catalog of `N` entries yields exactly
`N` in-memory records; a malformed catalog file terminates the run
before any database write is made — the catalog uploader then makes no
network call at all, while the seeder has already made (only) the
sign-in call. -/
theorem catalog_load_amended {α : Type} (raw : List (String × FoodData))
    (auth : AuthResponse) (today : PyDateTime) (files : List String)
    (initOk : Bool) (succ : String × α → Bool) :
    (buildAvailableFoods raw).length = raw.length ∧
    seederRun auth none today = [NetCall.auth] ∧
    uploadFoodsRun files initOk (none : Option (List (String × α))) succ = ([], 0) := by
  refine ⟨by simp [buildAvailableFoods], ?_, ?_⟩
  · unfold seederRun
    cases h : signInStep auth with
    | error e => simp [h]
    | ok p =>
      obtain ⟨idToken, userId⟩ := p
      simp [h]
  · unfold uploadFoodsRun
    cases h : resolveKeyFile files with
    | none => simp
    | some f => cases initOk <;> simp

/-- C6: the catalog uploader resolves the administrative credential
file in this priority order: the exact configured filename if it
exists, otherwise a local file matching the service-account pattern,
otherwise the fallback name `serviceAccountKey.json`, and terminates
the run (making no write) if none of these exists. -/
theorem credential_resolution (fs1 fs2 fs3 fs4 : List String) (k : String)
    (ks : List String) (initOk : Bool)
    (catalog : Option (List (String × FoodData))) (succ : String × FoodData → Bool)
    (h1 : SERVICE_ACCOUNT_KEY_FILE ∈ fs1)
    (h2a : SERVICE_ACCOUNT_KEY_FILE ∉ fs2)
    (h2b : fs2.filter isPotentialKey = k :: ks)
    (h3a : SERVICE_ACCOUNT_KEY_FILE ∉ fs3)
    (h3b : fs3.filter isPotentialKey = [])
    (h3c : "serviceAccountKey.json" ∈ fs3)
    (h4a : SERVICE_ACCOUNT_KEY_FILE ∉ fs4)
    (h4b : fs4.filter isPotentialKey = [])
    (h4c : "serviceAccountKey.json" ∉ fs4) :
    resolveKeyFile fs1 = some SERVICE_ACCOUNT_KEY_FILE ∧
    resolveKeyFile fs2 = some k ∧
    resolveKeyFile fs3 = some "serviceAccountKey.json" ∧
    resolveKeyFile fs4 = none ∧
    uploadFoodsRun fs4 initOk catalog succ = ([], 0) := by
  have h4 : resolveKeyFile fs4 = none := by
    simp [resolveKeyFile, h4a, h4b, h4c]
  refine ⟨?_, ?_, ?_, h4, ?_⟩
  · simp [resolveKeyFile, h1]
  · simp [resolveKeyFile, h2a, h2b]
  · simp [resolveKeyFile, h3a, h3b, h3c]
  · simp [uploadFoodsRun, h4]

/-- C6, witness: the four resolution cases exercised on concrete
directory listings. -/
theorem credential_resolution_witness :
    SERVICE_ACCOUNT_KEY_FILE ∈ [SERVICE_ACCOUNT_KEY_FILE] ∧
    SERVICE_ACCOUNT_KEY_FILE ∉ ["a-firebase-adminsdk-b.json"] ∧
    (["a-firebase-adminsdk-b.json"].filter isPotentialKey
      = "a-firebase-adminsdk-b.json" :: []) ∧
    SERVICE_ACCOUNT_KEY_FILE ∉ ["serviceAccountKey.json"] ∧
    (["serviceAccountKey.json"].filter isPotentialKey = []) ∧
    "serviceAccountKey.json" ∈ ["serviceAccountKey.json"] ∧
    SERVICE_ACCOUNT_KEY_FILE ∉ ([] : List String) ∧
    (([] : List String).filter isPotentialKey = []) ∧
    "serviceAccountKey.json" ∉ ([] : List String) ∧
    (resolveKeyFile [SERVICE_ACCOUNT_KEY_FILE] = some SERVICE_ACCOUNT_KEY_FILE ∧
     resolveKeyFile ["a-firebase-adminsdk-b.json"] = some "a-firebase-adminsdk-b.json" ∧
     resolveKeyFile ["serviceAccountKey.json"] = some "serviceAccountKey.json" ∧
     resolveKeyFile [] = none ∧
     uploadFoodsRun [] true (some sampleRaw) (fun _ => true) = ([], 0)) :=
  ⟨by decide, by decide, by decide, by decide, by decide, by decide, by decide,
   by decide, by decide,
   credential_resolution [SERVICE_ACCOUNT_KEY_FILE] ["a-firebase-adminsdk-b.json"]
     ["serviceAccountKey.json"] [] "a-firebase-adminsdk-b.json" [] true
     (some sampleRaw) (fun _ => true)
     (by decide) (by decide) (by decide) (by decide) (by decide) (by decide)
     (by decide) (by decide) (by decide)⟩

/-- C7: the seeder's sign-in step posts the credentials first; on every
non-success status it prints the response text and terminates the run
with no further network call, and on every success response it extracts
the identity token and user id, which authorize every subsequent write
of the run as a bearer token addressed to that user's subcollection. -/
theorem sign_in_step (r rOk : AuthResponse)
    (catalog : Option (List (String × FoodData))) (today : PyDateTime)
    (hfail : r.status ≠ 200) (hok : rOk.status = 200) :
    signInStep r = .error ("Login Gagal! " ++ r.text) ∧
    seederRun r catalog today = [NetCall.auth] ∧
    signInStep rOk = .ok (rOk.idToken, rOk.localId) ∧
    (seederRun rOk catalog today).all (bearerOk rOk.idToken rOk.localId) = true := by
  have hse : signInStep r = .error ("Login Gagal! " ++ r.text) := by
    simp [signInStep, hfail]
  have hso : signInStep rOk = .ok (rOk.idToken, rOk.localId) := by
    simp [signInStep, hok]
  refine ⟨hse, ?_, hso, ?_⟩
  · unfold seederRun
    rw [hse]
  · cases catalog with
    | none =>
      rw [seederRun_ok_none rOk hok today]
      rfl
    | some raw =>
      rw [seederRun_ok_some rOk hok raw today]
      cases hg : generateRequests (buildAvailableFoods raw) today rOk.localId rOk.idToken with
      | none => rfl
      | some reqs =>
        have hauth := generateRequests_auth _ _ _ _ _ hg
        simp only [List.all_cons, List.all_eq_true, bearerOk, Bool.true_and]
        intro c hc
        simp only [List.mem_map] at hc
        obtain ⟨req, hreq, rfl⟩ := hc
        obtain ⟨ha, hu⟩ := hauth req hreq
        simp [bearerOk, ha, hu]

/-- C7, witness: a failing and a succeeding response exercised on a
concrete 19-entry catalog. -/
theorem sign_in_step_witness :
    authFail.status ≠ 200 ∧ authOk.status = 200 ∧
    (signInStep authFail = .error ("Login Gagal! " ++ authFail.text) ∧
     seederRun authFail (some sampleRaw) t0 = [NetCall.auth] ∧
     signInStep authOk = .ok (authOk.idToken, authOk.localId) ∧
     (seederRun authOk (some sampleRaw) t0).all (bearerOk authOk.idToken authOk.localId) = true) :=
  ⟨by decide, by decide,
   sign_in_step authFail authOk (some sampleRaw) t0 (by decide) (by decide)⟩

/-- C5, counterexample: the claim says every generated meal carries a
timestamp at exactly 08:00, 13:00 or 19:00 of its date.
`replace(hour=.., minute=0, second=0)` does not clear the microsecond
field of `datetime.utcnow()`: on a run starting at microsecond 123456
the first meal's timestamp is 08:00:00.123456, not exactly 08:00. -/
theorem date_generation_counterexample :
    ((generateRequests sampleFoods t0 "uid" "tok").bind List.head?).map
        (fun r => r.payload.timestamp)
      = some { day := 0, hour := 8, minute := 0, second := 0, microsecond := 123456 } ∧
    ({ day := 0, hour := 8, minute := 0, second := 0, microsecond := 123456 } : PyDateTime)
      ≠ { day := 0, hour := 8, minute := 0, second := 0, microsecond := 0 } := by
  refine ⟨?_, by decide⟩
  rfl

/-- C5, amended: for a run with today = `D`, the seeder generates meals
for exactly the five dates `D, D-1, D-2, D-3, D-4` — provided the
catalog yields at least 19 records, which meal construction needs —
and for each of those dates the three meals carry timestamps whose
hour:minute:second parts are exactly 08:00:00, 13:00:00 and 19:00:00 of
that date, with the run start's microsecond component preserved. -/
theorem date_generation_amended (foods : List AvailableFood) (today : PyDateTime)
    (userId idToken : String) (h : 19 ≤ foods.length) :
    (generateRequests foods today userId idToken).map
        (fun rs => rs.map (fun r => (r.payload.date, r.payload.timestamp)))
      = some
        [(today.day, { day := today.day, hour := 8, minute := 0, second := 0, microsecond := today.microsecond }),
         (today.day, { day := today.day, hour := 13, minute := 0, second := 0, microsecond := today.microsecond }),
         (today.day, { day := today.day, hour := 19, minute := 0, second := 0, microsecond := today.microsecond }),
         (today.day - 1, { day := today.day - 1, hour := 8, minute := 0, second := 0, microsecond := today.microsecond }),
         (today.day - 1, { day := today.day - 1, hour := 13, minute := 0, second := 0, microsecond := today.microsecond }),
         (today.day - 1, { day := today.day - 1, hour := 19, minute := 0, second := 0, microsecond := today.microsecond }),
         (today.day - 2, { day := today.day - 2, hour := 8, minute := 0, second := 0, microsecond := today.microsecond }),
         (today.day - 2, { day := today.day - 2, hour := 13, minute := 0, second := 0, microsecond := today.microsecond }),
         (today.day - 2, { day := today.day - 2, hour := 19, minute := 0, second := 0, microsecond := today.microsecond }),
         (today.day - 3, { day := today.day - 3, hour := 8, minute := 0, second := 0, microsecond := today.microsecond }),
         (today.day - 3, { day := today.day - 3, hour := 13, minute := 0, second := 0, microsecond := today.microsecond }),
         (today.day - 3, { day := today.day - 3, hour := 19, minute := 0, second := 0, microsecond := today.microsecond }),
         (today.day - 4, { day := today.day - 4, hour := 8, minute := 0, second := 0, microsecond := today.microsecond }),
         (today.day - 4, { day := today.day - 4, hour := 13, minute := 0, second := 0, microsecond := today.microsecond }),
         (today.day - 4, { day := today.day - 4, hour := 19, minute := 0, second := 0, microsecond := today.microsecond })] := by
  rw [generateRequests_eq foods today userId idToken h]
  simp [upload_meal, replaceHMS, subDays, dateLabel]

/-- C5, witness: the amended date generation evaluated on a concrete
19-entry catalog and a concrete run start. -/
theorem date_generation_witness :
    19 ≤ sampleFoods.length ∧
    (generateRequests sampleFoods t0 "uid" "tok").map
        (fun rs => rs.map (fun r => (r.payload.date, r.payload.timestamp)))
      = some
        [(t0.day, { day := t0.day, hour := 8, minute := 0, second := 0, microsecond := t0.microsecond }),
         (t0.day, { day := t0.day, hour := 13, minute := 0, second := 0, microsecond := t0.microsecond }),
         (t0.day, { day := t0.day, hour := 19, minute := 0, second := 0, microsecond := t0.microsecond }),
         (t0.day - 1, { day := t0.day - 1, hour := 8, minute := 0, second := 0, microsecond := t0.microsecond }),
         (t0.day - 1, { day := t0.day - 1, hour := 13, minute := 0, second := 0, microsecond := t0.microsecond }),
         (t0.day - 1, { day := t0.day - 1, hour := 19, minute := 0, second := 0, microsecond := t0.microsecond }),
         (t0.day - 2, { day := t0.day - 2, hour := 8, minute := 0, second := 0, microsecond := t0.microsecond }),
         (t0.day - 2, { day := t0.day - 2, hour := 13, minute := 0, second := 0, microsecond := t0.microsecond }),
         (t0.day - 2, { day := t0.day - 2, hour := 19, minute := 0, second := 0, microsecond := t0.microsecond }),
         (t0.day - 3, { day := t0.day - 3, hour := 8, minute := 0, second := 0, microsecond := t0.microsecond }),
         (t0.day - 3, { day := t0.day - 3, hour := 13, minute := 0, second := 0, microsecond := t0.microsecond }),
         (t0.day - 3, { day := t0.day - 3, hour := 19, minute := 0, second := 0, microsecond := t0.microsecond }),
         (t0.day - 4, { day := t0.day - 4, hour := 8, minute := 0, second := 0, microsecond := t0.microsecond }),
         (t0.day - 4, { day := t0.day - 4, hour := 13, minute := 0, second := 0, microsecond := t0.microsecond }),
         (t0.day - 4, { day := t0.day - 4, hour := 19, minute := 0, second := 0, microsecond := t0.microsecond })] :=
  ⟨by decide, date_generation_amended sampleFoods t0 "uid" "tok" (by decide)⟩

/-- C8: the seeder indexes the loaded food list at the fixed positions
0, 18, 1, 9 and 14 when constructing meals; for every catalog yielding
fewer than 19 records, meal construction fails on an out-of-range
index, so the seeder's unstated precondition is a catalog of at least
19 entries. -/
theorem index_precondition (foods1 foods2 : List AvailableFood) (today : PyDateTime)
    (userId idToken : String) (hlt : foods1.length < 19) (hge : 19 ≤ foods2.length) :
    generateRequests foods1 today userId idToken = none ∧
    (generateRequests foods2 today userId idToken).map
        (fun rs => rs.map (fun r => r.payload.items))
      = some (List.replicate 5
          [[itemOf (foods2.getD 0 dfood), itemOf (foods2.getD 18 dfood)],
           [itemOf (foods2.getD 1 dfood), itemOf (foods2.getD 9 dfood)],
           [itemOf (foods2.getD 14 dfood)]]).flatten := by
  constructor
  · have hday : ∀ i : ℕ, buildDayMeals foods1 (subDays today i) = none :=
      fun i => buildDayMeals_none foods1 _ hlt
    unfold generateRequests
    rw [show List.range 5 = [0, 1, 2, 3, 4] from rfl]
    simp [List.mapM_cons, List.mapM.loop, hday]
  · rw [generateRequests_eq foods2 today userId idToken hge]
    rw [show (List.replicate 5
          [[itemOf (foods2.getD 0 dfood), itemOf (foods2.getD 18 dfood)],
           [itemOf (foods2.getD 1 dfood), itemOf (foods2.getD 9 dfood)],
           [itemOf (foods2.getD 14 dfood)]])
        = [[[itemOf (foods2.getD 0 dfood), itemOf (foods2.getD 18 dfood)],
            [itemOf (foods2.getD 1 dfood), itemOf (foods2.getD 9 dfood)],
            [itemOf (foods2.getD 14 dfood)]],
           [[itemOf (foods2.getD 0 dfood), itemOf (foods2.getD 18 dfood)],
            [itemOf (foods2.getD 1 dfood), itemOf (foods2.getD 9 dfood)],
            [itemOf (foods2.getD 14 dfood)]],
           [[itemOf (foods2.getD 0 dfood), itemOf (foods2.getD 18 dfood)],
            [itemOf (foods2.getD 1 dfood), itemOf (foods2.getD 9 dfood)],
            [itemOf (foods2.getD 14 dfood)]],
           [[itemOf (foods2.getD 0 dfood), itemOf (foods2.getD 18 dfood)],
            [itemOf (foods2.getD 1 dfood), itemOf (foods2.getD 9 dfood)],
            [itemOf (foods2.getD 14 dfood)]],
           [[itemOf (foods2.getD 0 dfood), itemOf (foods2.getD 18 dfood)],
            [itemOf (foods2.getD 1 dfood), itemOf (foods2.getD 9 dfood)],
            [itemOf (foods2.getD 14 dfood)]]] from rfl]
    simp [upload_meal]

/-- C8, witness: an empty catalog fails meal construction, a 19-entry
catalog succeeds with the fixed positions 0, 18, 1, 9, 14. -/
theorem index_precondition_witness :
    ([] : List AvailableFood).length < 19 ∧
    19 ≤ sampleFoods.length ∧
    (generateRequests [] t0 "uid" "tok" = none ∧
     (generateRequests sampleFoods t0 "uid" "tok").map
         (fun rs => rs.map (fun r => r.payload.items))
       = some (List.replicate 5
           [[itemOf (sampleFoods.getD 0 dfood), itemOf (sampleFoods.getD 18 dfood)],
            [itemOf (sampleFoods.getD 1 dfood), itemOf (sampleFoods.getD 9 dfood)],
            [itemOf (sampleFoods.getD 14 dfood)]]).flatten) :=
  ⟨by decide, by decide,
   index_precondition [] sampleFoods t0 "uid" "tok" (by decide) (by decide)⟩

/-- C9, counterexample: the claim says every run that reaches the
data-generation step issues exactly 15 meal write requests.  A run
that signs in successfully and loads an 18-entry catalog reaches data
generation but crashes on index 18 and issues 0 meal writes. -/
theorem write_sequence_counterexample :
    ((seederRun authOk (some raw18) t0).filterMap callDateHour).length = 0 ∧
    (0 : ℕ) ≠ 15 := by
  refine ⟨?_, by decide⟩
  rfl

/-- C9, amended: for every run that reaches the data-generation step
with a catalog of at least 19 records, the seeder issues exactly 15
meal write requests (3 per day for 5 days), ordered from today
backwards one day at a time, and within each day in the order 08:00,
then 13:00, then 19:00. -/
theorem write_sequence_amended (auth : AuthResponse) (raw : List (String × FoodData))
    (today : PyDateTime) (h200 : auth.status = 200) (h19 : 19 ≤ raw.length) :
    (seederRun auth (some raw) today).filterMap callDateHour
      = [(today.day, 8), (today.day, 13), (today.day, 19),
         (today.day - 1, 8), (today.day - 1, 13), (today.day - 1, 19),
         (today.day - 2, 8), (today.day - 2, 13), (today.day - 2, 19),
         (today.day - 3, 8), (today.day - 3, 13), (today.day - 3, 19),
         (today.day - 4, 8), (today.day - 4, 13), (today.day - 4, 19)] ∧
    ((seederRun auth (some raw) today).filterMap callDateHour).length = 15 := by
  have hlen : 19 ≤ (buildAvailableFoods raw).length := by
    simpa [buildAvailableFoods] using h19
  have hmain : (seederRun auth (some raw) today).filterMap callDateHour
      = [(today.day, 8), (today.day, 13), (today.day, 19),
         (today.day - 1, 8), (today.day - 1, 13), (today.day - 1, 19),
         (today.day - 2, 8), (today.day - 2, 13), (today.day - 2, 19),
         (today.day - 3, 8), (today.day - 3, 13), (today.day - 3, 19),
         (today.day - 4, 8), (today.day - 4, 13), (today.day - 4, 19)] := by
    rw [seederRun_ok_some auth h200 raw today,
      generateRequests_eq (buildAvailableFoods raw) today auth.localId auth.idToken hlen]
    simp [callDateHour, upload_meal, replaceHMS, subDays, dateLabel]
  exact ⟨hmain, by rw [hmain]; rfl⟩

/-- C9, witness: the amended write sequence evaluated on a successful
sign-in, a concrete 19-entry catalog and a concrete run start. -/
theorem write_sequence_witness :
    authOk.status = 200 ∧
    19 ≤ sampleRaw.length ∧
    ((seederRun authOk (some sampleRaw) t0).filterMap callDateHour
       = [(t0.day, 8), (t0.day, 13), (t0.day, 19),
          (t0.day - 1, 8), (t0.day - 1, 13), (t0.day - 1, 19),
          (t0.day - 2, 8), (t0.day - 2, 13), (t0.day - 2, 19),
          (t0.day - 3, 8), (t0.day - 3, 13), (t0.day - 3, 19),
          (t0.day - 4, 8), (t0.day - 4, 13), (t0.day - 4, 19)] ∧
     ((seederRun authOk (some sampleRaw) t0).filterMap callDateHour).length = 15) :=
  ⟨by decide, by decide,
   write_sequence_amended authOk sampleRaw t0 (by decide) (by decide)⟩

end CaloriLens
